import Mathlib

/-!
Verification of the axia query interpreter, result normalizer and summary generator.

Shallow embedding of `src/backend/main.py` (benjamenharper/axia).  Pure
Python functions become Lean functions on `List Char`/`String`; the
regular expressions used by the interpreter are fixed and simple enough
that each one is embedded as a dedicated leftmost-match scanner with the
same semantics (greedy quantifiers; for these patterns maximal munch
agrees with the backtracking engine, as argued in comments at each
matcher).  Machine floats appearing in `float(...) * 1000000` and
`int(float(...))` are modelled in exact integer arithmetic (truncation
toward zero); IEEE rounding of non-integral "x.y million" values is
outside the model, and no claim depends on it.  Fallible code returns
`Option`/`Except`.  Only the ASCII fragment of Python's Unicode string
semantics is modelled (all queries and field values in the claims are
ASCII).
-/

namespace Axia

/-! ## Python string primitives (ASCII fragment) -/

/-- Python `\s` for the ASCII range: space, tab, newline, carriage
return, vertical tab, form feed. -/
def isPySpace (c : Char) : Bool :=
  c = ' ' || c = '\t' || c = '\n' || c = '\r' || c = '\x0b' || c = '\x0c'

/-- Python `str.lower()` on the ASCII range (maps A-Z to a-z). -/
def lowerStr (s : String) : String :=
  String.mk (s.data.map Char.toLower)

/-- Python `str.strip()` on a char list: drop leading and trailing whitespace. -/
def pyStrip (l : List Char) : List Char :=
  ((l.dropWhile isPySpace).reverse.dropWhile isPySpace).reverse

/-- Helper for `str.split()`: accumulates the current word (reversed). -/
def pySplitAux : List Char → List Char → List String
  | [], acc => if acc.isEmpty then [] else [String.mk acc.reverse]
  | c :: cs, acc =>
    if isPySpace c then
      if acc.isEmpty then pySplitAux cs []
      else String.mk acc.reverse :: pySplitAux cs []
    else pySplitAux cs (c :: acc)

/-- Python `str.split()` with no argument: split on whitespace runs,
dropping empty fields. -/
def pySplit (q : String) : List String := pySplitAux q.data []

/-- Python `sep.join(parts)`. -/
def pyJoin (sep : String) : List String → String
  | [] => ""
  | [x] => x
  | x :: y :: ys => x ++ sep ++ pyJoin sep (y :: ys)

/-- Test that `needle` occurs as a leading segment of `hay` (char-by-char). -/
def leadsWith : List Char → List Char → Bool
  | [], _ => true
  | _ :: _, [] => false
  | a :: as, b :: bs => a = b && leadsWith as bs

/-- Python `needle in hay` substring test (leftmost scan). -/
def containsSub (needle : List Char) : List Char → Bool
  | [] => needle.isEmpty
  | c :: cs => leadsWith needle (c :: cs) || containsSub needle cs

/-- Substring test on `String`s, as used by the property-type checks. -/
def strIn (needle hay : String) : Bool := containsSub needle.data hay.data

/-- Decimal digit run to a natural number. -/
def digitsToNat (l : List Char) : Nat :=
  l.foldl (fun a c => a * 10 + (c.toNat - 48)) 0

/-! ## The location regexes

`extract_location` (main.py lines 72-117) searches, in order, the
patterns `in ([A-Za-z\s,]+)`, `at ([A-Za-z\s,]+)`, `near ([A-Za-z\s,]+)`
with `re.IGNORECASE`.  Each is a literal followed by a single greedy
character class with nothing after it, so the leftmost match captures
the maximal run of class characters after the first position where the
literal matches and at least one class character follows. -/

/-- The character class `[A-Za-z\s,]` of the location patterns. -/
def isLocChar (c : Char) : Bool := c.isAlpha || isPySpace c || c = ','

/-- Case-insensitive literal match; the literal is given lowercase.
Returns the remaining input on success. -/
def lcLit : List Char → List Char → Option (List Char)
  | [], s => some s
  | _ :: _, [] => none
  | l :: ls, c :: cs => if c.toLower = l then lcLit ls cs else none

/-- One location pattern at one position: literal, then a non-empty
greedy run of `[A-Za-z\s,]` (the captured group). -/
def matchLocAt (lit : List Char) (s : List Char) : Option (List Char) :=
  match lcLit lit s with
  | none => none
  | some rest =>
    let g := rest.takeWhile isLocChar
    if g.isEmpty then none else some g

/-- Semantics of `re.search` for one location pattern: leftmost position wins. -/
def searchLoc (lit : List Char) : List Char → Option (List Char)
  | [] => none
  | c :: cs =>
    match matchLocAt lit (c :: cs) with
    | some g => some g
    | none => searchLoc lit cs

/-- The three location pattern literals, in the source's order. -/
def locPatterns : List (List Char) := ["in ".data, "at ".data, "near ".data]

/-- The `for pattern in location_patterns` loop: first pattern whose
search succeeds wins. -/
def findLocPattern : List (List Char) → List Char → Option (List Char)
  | [], _ => none
  | p :: ps, s =>
    match searchLoc p s with
    | some g => some g
    | none => findLocPattern ps s

/-- The hard-coded city-to-state suffix table applied when the matched
location has no comma (main.py lines 91-104). -/
def addState (loc : String) : String :=
  if loc.data.contains ',' then loc
  else
    let ll := lowerStr loc
    if ll = "boston" then loc ++ ", MA"
    else if ll = "new york" || ll = "nyc" then loc ++ ", NY"
    else if ll = "miami" then loc ++ ", FL"
    else if ll = "chicago" then loc ++ ", IL"
    else if ll = "los angeles" then loc ++ ", CA"
    else if ll = "princeville" || ll = "kapaa" || ll = "poipu" || ll = "kauai" then loc ++ ", HI"
    else loc

/-- An `HTTPException(status_code, detail)`. -/
structure HTTPError where
  status : Nat
  detail : String
deriving DecidableEq, Repr

/-- The 400 error raised when no location is found (the spec's
`MissingLocationError`). -/
def missingLocationError : HTTPError :=
  { status := 400,
    detail := "Please specify a location in your search query" }

/-- Python `words[0][0].isupper()` for the fallback branch. -/
def firstCharUpper (w : String) : Bool :=
  match w.data with
  | [] => false
  | c :: _ => c.isUpper

/-- Embeds `extract_location` (main.py lines 72-117): try the three
prepositional patterns, add a state suffix for known cities, fall back
to a capitalized first token, otherwise raise. -/
def extract_location (q : String) : Except HTTPError String :=
  match findLocPattern locPatterns q.data with
  | some g => .ok (addState (String.mk (pyStrip g)))
  | none =>
    match pySplit q with
    | w :: _ => if firstCharUpper w then .ok w else .error missingLocationError
    | [] => .error missingLocationError

/-! ## The price regexes

`extract_search_params` (main.py lines 119-168) tries six
(pattern, converter) pairs in a fixed order on the lowercased query;
the first pattern whose `re.search` succeeds sets `max_price` (a
converter exception would fall through to the next pattern, but on the
strings these groups can capture the converters are total).  Each
matcher below returns the converted value directly.

Backtracking note: in every pattern the pieces after the digit group
begin with `\s*million` or nothing, and a digit is neither whitespace
nor `m`, so giving back characters from `\d+`, `\.?`, `\d*` or `,?`
can never turn a failure into a success; maximal munch is therefore
exact for the group.  The optional pieces ` ?` and `\$?` are tried
greedily with explicit fallback. -/

/-- Greedy `c?`: prefer consuming a leading `c`, fall back to not
consuming it. -/
def tryOpt (c : Char) (r : List Char) (k : List Char → Option Nat) : Option Nat :=
  match r with
  | x :: xs => if x = c then (k xs).orElse (fun _ => k r) else k r
  | [] => k []

/-- Value of `float(g) * 1000000` floored, for a group `\d+\.?\d*` split into
integer digits `ds` and fraction digits `fs` (exact arithmetic). -/
def millionValue (ds fs : List Char) : Nat :=
  (digitsToNat ds * 10 ^ fs.length + digitsToNat fs) * 1000000 / 10 ^ fs.length

/-- The tail `(\d+\.?\d*)\s*million` with its converter. -/
def millionGroup (r : List Char) : Option Nat :=
  let ds := r.takeWhile Char.isDigit
  if ds.isEmpty then none
  else
    let r2 := r.drop ds.length
    let (fs, r3) : List Char × List Char :=
      match r2 with
      | '.' :: r3 => (r3.takeWhile Char.isDigit, (r3.dropWhile Char.isDigit))
      | _ => ([], r2)
    let r4 := r3.dropWhile isPySpace
    match lcLit "million".data r4 with
    | some _ => some (millionValue ds fs)
    | none => none

/-- The tail `(\d+,?\d*)` with converter
`float(x.replace(',', ''))` (exact arithmetic). -/
def plainGroup (r : List Char) : Option Nat :=
  let ds := r.takeWhile Char.isDigit
  if ds.isEmpty then none
  else
    let r2 := r.drop ds.length
    let fs : List Char :=
      match r2 with
      | ',' :: r3 => r3.takeWhile Char.isDigit
      | _ => []
    some (digitsToNat (ds ++ fs))

/-- Pattern 1 at a position: `under ?\$?(\d+\.?\d*)\s*million`. -/
def p1At (s : List Char) : Option Nat :=
  match lcLit "under".data s with
  | some r => tryOpt ' ' r (fun r2 => tryOpt '$' r2 millionGroup)
  | none => none

/-- Pattern 2 at a position: `under ?\$?(\d+,?\d*)`. -/
def p2At (s : List Char) : Option Nat :=
  match lcLit "under".data s with
  | some r => tryOpt ' ' r (fun r2 => tryOpt '$' r2 plainGroup)
  | none => none

/-- Pattern 3 at a position: `less than ?\$?(\d+\.?\d*)\s*million`. -/
def p3At (s : List Char) : Option Nat :=
  match lcLit "less than".data s with
  | some r => tryOpt ' ' r (fun r2 => tryOpt '$' r2 millionGroup)
  | none => none

/-- Pattern 4 at a position: `less than ?\$?(\d+,?\d*)`. -/
def p4At (s : List Char) : Option Nat :=
  match lcLit "less than".data s with
  | some r => tryOpt ' ' r (fun r2 => tryOpt '$' r2 plainGroup)
  | none => none

/-- Pattern 5 at a position: `\$?(\d+\.?\d*)\s*million`. -/
def p5At (s : List Char) : Option Nat :=
  tryOpt '$' s millionGroup

/-- Pattern 6 at a position: `\$?(\d+,?\d*)`. -/
def p6At (s : List Char) : Option Nat :=
  tryOpt '$' s plainGroup

/-- Leftmost `re.search` driver: leftmost position at which the matcher
succeeds. -/
def searchP (matchAt : List Char → Option Nat) : List Char → Option Nat
  | [] => none
  | c :: cs =>
    match matchAt (c :: cs) with
    | some v => some v
    | none => searchP matchAt cs

/-- The six price patterns (already fused with their converters), in
the source's fixed order. -/
def pricePatterns : List (List Char → Option Nat) :=
  [searchP p1At, searchP p2At, searchP p3At, searchP p4At, searchP p5At, searchP p6At]

/-- The `for pattern, converter in price_patterns` loop: first
successful pattern wins. -/
def priceLoop : List (List Char → Option Nat) → List Char → Option Nat
  | [], _ => none
  | p :: ps, s =>
    match p s with
    | some v => some v
    | none => priceLoop ps s

/-- Price extraction on the lowercased query. -/
def priceExtract (s : List Char) : Option Nat := priceLoop pricePatterns s

/-- The `criteria` dict returned by `extract_search_params`:
`max_price` is stored as `str(int(price))`, `min_price` is never
written after its `None` initialisation. -/
structure Criteria where
  location : String
  min_price : Option String
  max_price : Option String
  property_type : String
deriving DecidableEq, Repr

/-- Embeds `extract_search_params` (main.py lines 119-168): location (raising
propagates), then property type by case-insensitive substring checks in
fixed precedence with default `SINGLE_FAMILY`, then the price loop. -/
def extract_search_params (q : String) : Except HTTPError Criteria :=
  let ql := lowerStr q
  match extract_location q with
  | .error e => .error e
  | .ok loc =>
    let ptype : String :=
      if strIn "land" ql || strIn "lot" ql then "LAND"
      else if strIn "condo" ql then "CONDO"
      else if strIn "townhouse" ql || strIn "town house" ql then "TOWNHOUSE"
      else if strIn "multi" ql || strIn "multi-family" ql then "MULTI_FAMILY"
      else "SINGLE_FAMILY"
    .ok { location := loc,
          min_price := none,
          max_price := (priceExtract ql.data).map (fun v => toString v),
          property_type := ptype }

/-! ## Summary generator (`generate_search_summary`, main.py lines 170-206) -/

/-- Comma grouping over a reversed digit list (`{n:,}` formatting). -/
def cgAux : List Char → Nat → List Char
  | [], _ => []
  | [c], _ => [c]
  | c :: cs, n => if n = 2 then c :: ',' :: cgAux cs 0 else c :: cgAux cs (n + 1)

/-- Python `f"{n:,}"` for an integer: decimal digits grouped in threes
with commas, sign in front. -/
def fmtComma (n : Int) : String :=
  (if n < 0 then "-" else "") ++ String.mk ((cgAux (toString n.natAbs).data.reverse 0).reverse)

/-- Python `float(s)` then `int(...)` (truncation toward zero), for the
decimal forms `[+-]?\d*(\.\d*)?` with at least one digit and optional
surrounding whitespace (exponent forms, `inf`/`nan` and underscore
separators are outside the model; no claim exercises them, and on the
inputs that matter unparsable text maps to `none` = raised
`ValueError`). -/
def parseFloatTrunc (s : String) : Option Int :=
  let t := pyStrip s.data
  let (sgn, r) : Int × List Char :=
    match t with
    | '+' :: r => (1, r)
    | '-' :: r => (-1, r)
    | r => (1, r)
  let ds := r.takeWhile Char.isDigit
  let r2 := r.drop ds.length
  match r2 with
  | [] => if ds.isEmpty then none else some (sgn * (digitsToNat ds : Int))
  | '.' :: r3 =>
    let fs := r3.takeWhile Char.isDigit
    let r4 := r3.drop fs.length
    if r4.isEmpty && !(ds.isEmpty && fs.isEmpty) then
      some (sgn * (digitsToNat ds : Int))
    else none
  | _ => none

/-- Python `int(float(s.replace("$", "").replace(",", "")))`, the price
parser shared by the summary generator and the record normalizer. -/
def parsePrice (s : String) : Option Int :=
  parseFloatTrunc (String.mk (s.data.filter (fun c => !(c = '$' || c = ','))))

/-- The `property_type_display` lookup with its `"properties"`
default. -/
def displayType (pt : String) : String :=
  if pt = "SINGLE_FAMILY" then "single-family homes"
  else if pt = "CONDO" then "condominiums"
  else if pt = "TOWNHOUSE" then "townhouses"
  else if pt = "MULTI_FAMILY" then "multi-family homes"
  else if pt = "LAND" then "land"
  else "properties"

/-- Python truthiness of an optional string field of the criteria
dict: `None` and `""` are falsy. -/
def pyTruthyOS : Option String → Bool
  | none => false
  | some s => !s.isEmpty

/-- Embeds `generate_search_summary` (main.py lines 170-206).  Returns `none`
where the Python raises: `summary_parts[0]` on an empty list
(location falsy, property type truthy) or a `ValueError` from
`int(float(...))` on a malformed price string. -/
def generate_search_summary (c : Criteria) : Option String :=
  let parts : List String :=
    if !c.location.isEmpty then ["Looking for properties in " ++ c.location] else []
  let step1 : Option (List String) :=
    if !c.property_type.isEmpty then
      match parts with
      | [] => none
      | _ :: rest =>
        some (("Looking for " ++ displayType c.property_type ++ " in " ++ c.location) :: rest)
    else some parts
  match step1 with
  | none => none
  | some parts1 =>
    let clause : Option (List String) :=
      if pyTruthyOS c.min_price && pyTruthyOS c.max_price then
        match parsePrice (c.min_price.getD ""), parsePrice (c.max_price.getD "") with
        | some mn, some mx =>
          some ["priced between $" ++ fmtComma mn ++ " and $" ++ fmtComma mx]
        | _, _ => none
      else if pyTruthyOS c.min_price then
        match parsePrice (c.min_price.getD "") with
        | some mn => some ["priced above $" ++ fmtComma mn]
        | none => none
      else if pyTruthyOS c.max_price then
        match parsePrice (c.max_price.getD "") with
        | some mx => some ["priced under $" ++ fmtComma mx]
        | none => none
      else some []
    match clause with
    | none => none
    | some cl => some (pyJoin " " (parts1 ++ cl))

/-! ## Result normalizer (the per-record loop of `search_zillow`,
main.py lines 351-394)

A raw provider record is an opaque key-value map; string and integer
values are the shapes the loop distinguishes (`isinstance(price_str,
str)`, truthiness, f-string rendering, `.strip()` which raises
`AttributeError` on a non-string).  Each record is processed inside
`try:`; any exception logs and `continue`s, i.e. drops that record
only. -/

/-- A raw provider field value: a string or an integer. -/
inductive RawVal
  | vstr : String → RawVal
  | vint : Int → RawVal
deriving DecidableEq, Repr

/-- A raw provider record: an ordered key-value map. -/
abbrev RawRecord := List (String × RawVal)

/-- Python `prop.get(key)`: `None` when the key is absent. -/
def rget : RawRecord → String → Option RawVal
  | [], _ => none
  | (k, v) :: rest, key => if k = key then some v else rget rest key

/-- Python `str(v)` / f-string rendering of a field value. -/
def pyStr : RawVal → String
  | .vstr s => s
  | .vint n => toString n

/-- Python truthiness of a field value: `""` and `0` are falsy. -/
def vTruthy : RawVal → Bool
  | .vstr s => !s.isEmpty
  | .vint n => decide (n ≠ 0)

/-- The `Property` pydantic model (main.py lines 63-70). -/
structure Property where
  id : String
  title : String
  price : Int
  location : String
  summary : String
  image_url : String
  features : List String
deriving DecidableEq, Repr

/-- Lines 354-358: `price_str = prop.get("price", "0")`; a string value
is stripped of `$` and `,` and parsed, an absent field defaults to the
string `"0"`, an integer passes through (`int(float(n)) = n`);
`none` models the `ValueError` that drops the record. -/
def recordPrice (r : RawRecord) : Option Int :=
  match (rget r "price").getD (.vstr "0") with
  | .vstr s => parsePrice s
  | .vint n => some n

/-- Lines 360-367: the features list, appended in the fixed order
bedrooms, bathrooms, livingArea, each guarded by
`if prop.get(field):` (truthiness, not mere presence). -/
def buildFeatures (r : RawRecord) : List String :=
  let features : List String := []
  let features :=
    match rget r "bedrooms" with
    | some v => if vTruthy v then features ++ [pyStr v ++ " bedrooms"] else features
    | none => features
  let features :=
    match rget r "bathrooms" with
    | some v => if vTruthy v then features ++ [pyStr v ++ " bathrooms"] else features
    | none => features
  let features :=
    match rget r "livingArea" with
    | some v => if vTruthy v then features ++ [pyStr v ++ " sqft"] else features
    | none => features
  features

/-- Lines 373-377: `prop.get(key, "").strip()`; `.strip()` on an
integer value raises `AttributeError` (→ `none`, record dropped). -/
def stripStrField (r : RawRecord) (k : String) : Option String :=
  match (rget r k).getD (.vstr "") with
  | .vstr s => some (String.mk (pyStrip s.data))
  | .vint _ => none

/-- One iteration of the per-record loop (lines 352-394): `none` means
the `except` branch fired and the record is dropped. -/
def normalizeRecord (r : RawRecord) (location : String) : Option Property :=
  match recordPrice r with
  | none => none
  | some price =>
    let features := buildFeatures r
    let prop_type := pyStr ((rget r "propertyType").getD ((rget r "homeType").getD (.vstr "Property")))
    match stripStrField r "streetAddress", stripStrField r "city", stripStrField r "state" with
    | some sa, some ci, some st =>
      some { id := pyStr ((rget r "zpid").getD ((rget r "id").getD (.vstr ""))),
             title := prop_type ++ " in " ++ pyStr ((rget r "city").getD (.vstr location)),
             price := price,
             location := pyJoin ", " ([sa, ci, st].filter (fun s => !s.isEmpty)),
             summary := prop_type ++ " with " ++ pyStr ((rget r "bedrooms").getD (.vstr "N/A"))
                        ++ " beds, " ++ pyStr ((rget r "bathrooms").getD (.vstr "N/A")) ++ " baths",
             image_url := pyStr ((rget r "imgSrc").getD ((rget r "imageUrl").getD (.vstr ""))),
             features := features }
    | _, _, _ => none

/-- The whole `for prop in properties_data` loop: per-record partial
success, dropped records are skipped and processing continues. -/
def normalizeRecords : List RawRecord → String → List Property
  | [], _ => []
  | r :: rs, loc =>
    match normalizeRecord r loc with
    | some p => p :: normalizeRecords rs loc
    | none => normalizeRecords rs loc

/-! ## AI enrichment and the orchestrator -/

/-- The outcome of the Groq HTTP call made by
`generate_location_overview` (main.py lines 208-258): a 200 response
with extracted content, a non-200 response, or a raised exception. -/
inductive GroqOutcome
  | success : String → GroqOutcome
  | errorResponse : String → GroqOutcome
  | raised : GroqOutcome
deriving DecidableEq, Repr

/-- Embeds `generate_location_overview`: 200 → the content; any error
response or exception → `None`. -/
def generate_location_overview : GroqOutcome → Option String
  | .success content => some content
  | .errorResponse _ => none
  | .raised => none

/-- A failure outcome of the enrichment call. -/
def groqFailed : GroqOutcome → Bool
  | .success _ => false
  | .errorResponse _ => true
  | .raised => true

/-- The JSON body returned by `POST /api/search`. -/
structure SearchResponse where
  results : List Property
  static_page_url : Option String
  search_summary : String
  location_overview : Option String
deriving DecidableEq, Repr

/-- Boolean success test on an `Except` result. -/
def isOkE : Except HTTPError SearchResponse → Bool
  | .ok _ => true
  | .error _ => false

/-- Embeds `search_properties` (main.py lines 411-479).  The two outbound
effects that do not belong to the core are oracles: `zillow` is the
outcome of `search_zillow` (an `HTTPException` or a normalized
property list) and `staticPage` the outcome of `generate_static_page`
(which already swallows its own exceptions into `None`).  A summary
exception is caught by the outer generic handler (status 500). -/
def search_properties (query : String) (zillow : Except HTTPError (List Property))
    (staticPage : Option String) (groq : GroqOutcome) : Except HTTPError SearchResponse :=
  match extract_search_params query with
  | .error e => .error e
  | .ok criteria =>
    if criteria.location.isEmpty then
      .error { status := 400, detail := "Please specify a location in your search query" }
    else
      match generate_search_summary criteria with
      | none => .error { status := 500, detail := "Unexpected error" }
      | some summary =>
        let overview := generate_location_overview groq
        match zillow with
        | .error e => .error e
        | .ok props =>
          if props.isEmpty then
            .ok { results := [], static_page_url := none,
                  search_summary := summary, location_overview := overview }
          else
            .ok { results := props, static_page_url := staticPage,
                  search_summary := summary, location_overview := overview }

/-! ## Theorems -/

/-- Unfolding lemma for the price-pattern loop. -/
theorem priceLoop_cons (p : List Char → Option Nat) (ps : List (List Char → Option Nat))
    (s : List Char) :
    priceLoop (p :: ps) s = match p s with | some v => some v | none => priceLoop ps s := rfl

/-- C1: the spec's example `interpret("condos near Chicago under 500000")`
does NOT return location "Chicago, IL": the greedy group of
`near ([A-Za-z\s,]+)` also captures the following word "under", so the
known-city lookup misses and no state suffix is added. -/
theorem axia_C1_counterexample :
    extract_search_params "condos near Chicago under 500000"
      = .ok { location := "Chicago under", min_price := none,
              max_price := some "500000", property_type := "CONDO" }
    ∧ ("Chicago under" : String) ≠ "Chicago, IL" := by
  constructor
  · rfl
  · decide

/-- C1 (amended): `interpret("condos near Chicago under 500000")` yields
location "Chicago under" (the greedy location group swallows the word
following the city), property type CONDO and max price 500000. -/
theorem axia_C1_amended :
    extract_search_params "condos near Chicago under 500000"
      = .ok { location := "Chicago under", min_price := none,
              max_price := some "500000", property_type := "CONDO" } := rfl

/-- C3: `interpret("homes under 2 million in Boston")` yields location
"Boston, MA", property type SINGLE_FAMILY, and max price 2000000. -/
theorem axia_C3 :
    extract_search_params "homes under 2 million in Boston"
      = .ok { location := "Boston, MA", min_price := none,
              max_price := some "2000000", property_type := "SINGLE_FAMILY" } := rfl

/-- C4: when none of the prepositional location patterns match and the
first whitespace-delimited token does not start with an uppercase
letter, both `extract_location` and the interpreter fail with the
missing-location 400 error — no default location is substituted. -/
theorem axia_C4 (q : String)
    (hpat : findLocPattern locPatterns q.data = none)
    (hcap : ∀ w ws, pySplit q = w :: ws → firstCharUpper w = false) :
    extract_location q = .error missingLocationError
    ∧ extract_search_params q = .error missingLocationError := by
  have hloc : extract_location q = .error missingLocationError := by
    unfold extract_location
    rw [hpat]
    cases hsp : pySplit q with
    | nil => rfl
    | cons w ws => simp [hcap w ws hsp]
  refine ⟨hloc, ?_⟩
  unfold extract_search_params
  rw [hloc]

/-- C4 witness at the concrete query "no location markers". -/
theorem axia_C4_witness :
    extract_location "no location markers" = .error missingLocationError
    ∧ extract_search_params "no location markers" = .error missingLocationError :=
  axia_C4 "no location markers" (by decide)
    (by intro w ws h; simp only [show pySplit "no location markers" = ["no", "location", "markers"] from rfl] at h; cases h; decide)

/-- C5: for every query the interpreter accepts, `min_price` is absent
(price extraction only ever writes `max_price`), and `max_price` is
absent whenever no price pattern matches the lowercased query. -/
theorem axia_C5 (q : String) (c : Criteria)
    (h : extract_search_params q = .ok c) :
    c.min_price = none ∧ (priceExtract (lowerStr q).data = none → c.max_price = none) := by
  unfold extract_search_params at h
  cases hloc : extract_location q with
  | error e => rw [hloc] at h; exact absurd h (by simp)
  | ok loc =>
    rw [hloc] at h
    simp only [Except.ok.injEq] at h
    constructor
    · rw [← h]
    · intro hp; rw [← h]; simp [hp]

/-- C5 witness at the concrete query "condos in Boston" (no digits, so
no price pattern matches). -/
theorem axia_C5_witness :
    ({ location := "Boston, MA", min_price := none, max_price := none,
       property_type := "CONDO" } : Criteria).min_price = none
    ∧ ({ location := "Boston, MA", min_price := none, max_price := none,
         property_type := "CONDO" } : Criteria).max_price = none :=
  ⟨(axia_C5 "condos in Boston" _ rfl).1,
   (axia_C5 "condos in Boston" _ rfl).2 (by decide)⟩

/-- C10: when the location is obtained through the capitalized
first-token fallback (no prepositional pattern matched), the returned
location is exactly that token — the state-suffix table is not
consulted on this path. -/
theorem axia_C10 (q w : String) (ws : List String)
    (hpat : findLocPattern locPatterns q.data = none)
    (hsplit : pySplit q = w :: ws)
    (hcap : firstCharUpper w = true) :
    extract_location q = .ok w := by
  unfold extract_location
  rw [hpat, hsplit]
  simp [hcap]

/-- C10 witness: "Boston condos for sale" has no "in"/"at"/"near"
phrase, so the location is the bare token "Boston", not "Boston, MA"
even though boston is in the known-city table. -/
theorem axia_C10_witness :
    extract_location "Boston condos for sale" = .ok "Boston"
    ∧ ("Boston" : String) ≠ "Boston, MA" :=
  ⟨axia_C10 "Boston condos for sale" "Boston" ["condos", "for", "sale"]
      (by decide) rfl rfl,
   by decide⟩

/-- Associativity of string append, via the underlying char lists. -/
theorem strAppend_assoc (a b c : String) : a ++ b ++ c = a ++ (b ++ c) := by
  apply String.ext
  simp [String.data_append, List.append_assoc]

/-- C6: the price loop honours the fixed six-pattern order: whenever
pattern `i` succeeds (its converter parses) and every earlier pattern
fails, the extracted `max_price` is pattern `i`'s value — in
particular, when both a "million" pattern and a bare-number pattern
match, the earlier one in the order wins. -/
theorem axia_C6 (s : List Char) (i v : Nat) (hi : i < 6)
    (hm : pricePatterns.getD i (fun _ => none) s = some v)
    (hprev : ∀ j, j < i → pricePatterns.getD j (fun _ => none) s = none) :
    priceExtract s = some v := by
  show priceLoop pricePatterns s = some v
  interval_cases i
  · have hm' : searchP p1At s = some v := hm
    simp [pricePatterns, priceLoop_cons, hm']
  · have h0 : searchP p1At s = none := hprev 0 (by omega)
    have hm' : searchP p2At s = some v := hm
    simp [pricePatterns, priceLoop_cons, h0, hm']
  · have h0 : searchP p1At s = none := hprev 0 (by omega)
    have h1 : searchP p2At s = none := hprev 1 (by omega)
    have hm' : searchP p3At s = some v := hm
    simp [pricePatterns, priceLoop_cons, h0, h1, hm']
  · have h0 : searchP p1At s = none := hprev 0 (by omega)
    have h1 : searchP p2At s = none := hprev 1 (by omega)
    have h2 : searchP p3At s = none := hprev 2 (by omega)
    have hm' : searchP p4At s = some v := hm
    simp [pricePatterns, priceLoop_cons, h0, h1, h2, hm']
  · have h0 : searchP p1At s = none := hprev 0 (by omega)
    have h1 : searchP p2At s = none := hprev 1 (by omega)
    have h2 : searchP p3At s = none := hprev 2 (by omega)
    have h3 : searchP p4At s = none := hprev 3 (by omega)
    have hm' : searchP p5At s = some v := hm
    simp [pricePatterns, priceLoop_cons, h0, h1, h2, h3, hm']
  · have h0 : searchP p1At s = none := hprev 0 (by omega)
    have h1 : searchP p2At s = none := hprev 1 (by omega)
    have h2 : searchP p3At s = none := hprev 2 (by omega)
    have h3 : searchP p4At s = none := hprev 3 (by omega)
    have h4 : searchP p5At s = none := hprev 4 (by omega)
    have hm' : searchP p6At s = some v := hm
    simp [pricePatterns, priceLoop_cons, h0, h1, h2, h3, h4, hm']

/-- C6 witness: on "2 million in boston" the million pattern (index 4)
and the bare-number pattern (index 5) both match; patterns 0-3 fail, so
the million pattern wins and the price is 2000000, not 2. -/
theorem axia_C6_witness : priceExtract "2 million in boston".data = some 2000000 :=
  axia_C6 "2 million in boston".data 4 2000000 (by omega) (by decide)
    (by intro j hj; interval_cases j <;> decide)

/-- C2 counterexample: a record with no `price` field at all is NOT
dropped — `prop.get("price", "0")` substitutes the string "0", so the
record survives normalization (with price 0). -/
theorem axia_C2_counterexample :
    rget [("bedrooms", RawVal.vint 3)] "price" = none
    ∧ normalizeRecords [[("bedrooms", RawVal.vint 3)]] "Kauai, HI" ≠ [] := by
  exact ⟨rfl, by decide⟩

/-- Field `k` of `r` is either absent or holds a string (so that
`prop.get(k, "").strip()` cannot raise). -/
def strOrAbsent (r : RawRecord) (k : String) : Bool :=
  match rget r k with
  | some (.vint _) => false
  | _ => true

/-- A string-or-absent field always strips successfully. -/
theorem stripStrField_isSome (r : RawRecord) (k : String) (h : strOrAbsent r k = true) :
    ∃ s, stripStrField r k = some s := by
  unfold strOrAbsent at h
  unfold stripStrField
  cases hk : rget r k with
  | none => exact ⟨_, rfl⟩
  | some v =>
    cases v with
    | vstr s => exact ⟨_, rfl⟩
    | vint n => rw [hk] at h; simp at h

/-- Unfolding lemma for the per-record loop. -/
theorem normalizeRecords_cons (r : RawRecord) (rs : List RawRecord) (loc : String) :
    normalizeRecords (r :: rs) loc
      = match normalizeRecord r loc with
        | some p => p :: normalizeRecords rs loc
        | none => normalizeRecords rs loc := rfl

/-- C2 (amended): a record whose `price` field is entirely absent is
KEPT (normalized with price 0, the parse of the substituted "0"),
provided its address fields are not non-string values, and processing
of subsequent records continues without raising; only an unparsable
present price (or a non-string address field) drops a record. -/
theorem axia_C2_amended (loc : String) (rs : List RawRecord) (r : RawRecord)
    (hp : rget r "price" = none)
    (hsa : strOrAbsent r "streetAddress" = true)
    (hci : strOrAbsent r "city" = true)
    (hst : strOrAbsent r "state" = true) :
    (normalizeRecord r loc).map Property.price = some 0
    ∧ normalizeRecords (r :: rs) loc
        = (normalizeRecord r loc).toList ++ normalizeRecords rs loc := by
  have hprice : recordPrice r = some 0 := by
    unfold recordPrice
    rw [hp]
    rfl
  obtain ⟨sa, hsa'⟩ := stripStrField_isSome r "streetAddress" hsa
  obtain ⟨ci, hci'⟩ := stripStrField_isSome r "city" hci
  obtain ⟨st, hst'⟩ := stripStrField_isSome r "state" hst
  have hnr : ∃ p, normalizeRecord r loc = some p ∧ p.price = 0 := by
    unfold normalizeRecord
    simp only [hprice, hsa', hci', hst']
    exact ⟨_, rfl, rfl⟩
  obtain ⟨p, hps, hpr⟩ := hnr
  constructor
  · rw [hps]; simp [hpr]
  · rw [normalizeRecords_cons, hps]
    simp

/-- C2 witness at a concrete record with no price field: it is kept
with price 0 and the loop continues. -/
theorem axia_C2_witness :
    (normalizeRecord [("bedrooms", RawVal.vint 3)] "Kauai, HI").map Property.price = some 0
    ∧ normalizeRecords [[("bedrooms", RawVal.vint 3)]] "Kauai, HI"
        = (normalizeRecord [("bedrooms", RawVal.vint 3)] "Kauai, HI").toList
          ++ normalizeRecords [] "Kauai, HI" :=
  axia_C2_amended "Kauai, HI" [] [("bedrooms", RawVal.vint 3)] rfl rfl rfl rfl

/-- C8 counterexample: the features list tests truthiness, not
presence: a record whose `bedrooms` field is PRESENT with value 0
contributes no "0 bedrooms" entry. -/
theorem axia_C8_counterexample :
    rget [("price", RawVal.vstr "100000"), ("bedrooms", RawVal.vint 0),
          ("bathrooms", RawVal.vint 2)] "bedrooms" = some (RawVal.vint 0)
    ∧ buildFeatures [("price", RawVal.vstr "100000"), ("bedrooms", RawVal.vint 0),
          ("bathrooms", RawVal.vint 2)] = ["2 bathrooms"]
    ∧ "0 bedrooms" ∉ buildFeatures [("price", RawVal.vstr "100000"),
          ("bedrooms", RawVal.vint 0), ("bathrooms", RawVal.vint 2)] := by
  refine ⟨rfl, rfl, ?_⟩
  decide

/-- One feature entry in the wording of the amended claim: a field that
is present with a truthy (non-zero, non-empty) value contributes
exactly one formatted string; any other field contributes nothing. -/
def featureEntry (r : RawRecord) (k suffix : String) : List String :=
  match rget r k with
  | some v => if vTruthy v then [pyStr v ++ suffix] else []
  | none => []

/-- The amended claim's feature list: ordered concatenation of the
bedrooms, bathrooms and living-area entries. -/
def featuresAmendedSpec (r : RawRecord) : List String :=
  featureEntry r "bedrooms" " bedrooms" ++ featureEntry r "bathrooms" " bathrooms"
    ++ featureEntry r "livingArea" " sqft"

/-- C8 (amended): the features list is built by testing, in the fixed
order bedrooms, bathrooms, living area, whether each field is present
with a truthy value (Python truthiness: 0 and "" fail the test); every
such field contributes exactly one formatted string and all other
fields contribute no entry. -/
theorem axia_C8_amended (r : RawRecord) : buildFeatures r = featuresAmendedSpec r := by
  unfold buildFeatures featuresAmendedSpec featureEntry
  cases hb : rget r "bedrooms" <;> cases hba : rget r "bathrooms" <;>
    cases hla : rget r "livingArea" <;> simp <;> split_ifs <;> simp

/-- C9: any failure outcome of the AI-enrichment call (error response
or raised exception) yields an absent overview, the response carries
`location_overview = none`, and whether the request succeeds is
entirely independent of the enrichment outcome — enrichment failure is
never propagated as a request failure. -/
theorem axia_C9 (q : String) (z : Except HTTPError (List Property)) (st : Option String)
    (g g' : GroqOutcome) (hg : groqFailed g = true) :
    generate_location_overview g = none
    ∧ Except.map SearchResponse.location_overview (search_properties q z st g)
        = Except.map (fun _ => (none : Option String)) (search_properties q z st g)
    ∧ isOkE (search_properties q z st g) = isOkE (search_properties q z st g') := by
  have hnone : generate_location_overview g = none := by
    cases g with
    | success s => simp [groqFailed] at hg
    | errorResponse t => rfl
    | raised => rfl
  refine ⟨hnone, ?_, ?_⟩
  · unfold search_properties
    cases extract_search_params q with
    | error e => rfl
    | ok c =>
      dsimp only
      by_cases hl : c.location.isEmpty
      · simp [if_pos hl, Except.map, isOkE]
      · simp only [if_neg hl]
        cases generate_search_summary c with
        | none => rfl
        | some summary =>
          cases z with
          | error e => rfl
          | ok props =>
            by_cases hpr : props.isEmpty <;> simp [hpr, hnone, Except.map]
  · unfold search_properties
    cases extract_search_params q with
    | error e => rfl
    | ok c =>
      dsimp only
      by_cases hl : c.location.isEmpty
      · simp [if_pos hl, Except.map, isOkE]
      · simp only [if_neg hl]
        cases generate_search_summary c with
        | none => rfl
        | some summary =>
          cases z with
          | error e => rfl
          | ok props =>
            by_cases hpr : props.isEmpty <;> simp [hpr, isOkE]

/-- C9 witness: a raised enrichment exception on a completing request. -/
theorem axia_C9_witness :
    generate_location_overview GroqOutcome.raised = none
    ∧ Except.map SearchResponse.location_overview
        (search_properties "condos in Boston" (Except.ok []) none GroqOutcome.raised)
        = Except.map (fun _ => (none : Option String))
            (search_properties "condos in Boston" (Except.ok []) none GroqOutcome.raised)
    ∧ isOkE (search_properties "condos in Boston" (Except.ok []) none GroqOutcome.raised)
        = isOkE (search_properties "condos in Boston" (Except.ok []) none (GroqOutcome.success "hi")) :=
  axia_C9 "condos in Boston" (Except.ok []) none GroqOutcome.raised (GroqOutcome.success "hi") rfl

/-- C7: for every criteria value (location and property type non-empty
as the data model requires, prices the decimal strings the interpreter
stores), the summary is "Looking for {plural-noun} in {location}"
followed by the price clause selected by which of min/max are present:
both, only min, only max, or neither. -/
theorem axia_C7 (l pt ms xs : String) (m x : Int)
    (hl : l.isEmpty = false) (hpt : pt.isEmpty = false)
    (hms : ms.isEmpty = false) (hxs : xs.isEmpty = false)
    (hpm : parsePrice ms = some m) (hpx : parsePrice xs = some x) :
    generate_search_summary
        { location := l, min_price := some ms, max_price := some xs, property_type := pt }
      = some ("Looking for " ++ displayType pt ++ " in " ++ l
              ++ " priced between $" ++ fmtComma m ++ " and $" ++ fmtComma x)
    ∧ generate_search_summary
        { location := l, min_price := some ms, max_price := none, property_type := pt }
      = some ("Looking for " ++ displayType pt ++ " in " ++ l ++ " priced above $" ++ fmtComma m)
    ∧ generate_search_summary
        { location := l, min_price := none, max_price := some xs, property_type := pt }
      = some ("Looking for " ++ displayType pt ++ " in " ++ l ++ " priced under $" ++ fmtComma x)
    ∧ generate_search_summary
        { location := l, min_price := none, max_price := none, property_type := pt }
      = some ("Looking for " ++ displayType pt ++ " in " ++ l) := by
  refine ⟨?_, ?_, ?_, ?_⟩
  · rw [show (" priced between $" : String) = " " ++ "priced between $" from rfl]
    simp [generate_search_summary, pyTruthyOS, hl, hpt, hms, hxs, hpm, hpx, pyJoin,
      strAppend_assoc]
    rfl
  · rw [show (" priced above $" : String) = " " ++ "priced above $" from rfl]
    simp [generate_search_summary, pyTruthyOS, hl, hpt, hms, hpm, pyJoin, strAppend_assoc]
    rfl
  · rw [show (" priced under $" : String) = " " ++ "priced under $" from rfl]
    simp [generate_search_summary, pyTruthyOS, hl, hpt, hxs, hpx, pyJoin, strAppend_assoc]
    rfl
  · simp [generate_search_summary, pyTruthyOS, hl, hpt, pyJoin]

/-- C7 witness: the spec's Miami example. -/
theorem axia_C7_witness :
    generate_search_summary
        { location := "Miami, FL", min_price := none, max_price := some "750000",
          property_type := "CONDO" }
      = some "Looking for condominiums in Miami, FL priced under $750,000" :=
  ((axia_C7 "Miami, FL" "CONDO" "750000" "750000" 750000 750000
      rfl rfl rfl rfl rfl rfl).2.2.1).trans (by decide)

end Axia
